import Mathlib

/-! Shallow embedding of the raster-analysis core of the farm-vision
repository (src/utils/advanced_vegetation.py and
src/utils/histogram_geotiff.py).

Modelling conventions:
* A 64-bit float value is modelled as `Option ℚ`: `none` stands for a
  non-finite value (NaN; at the few marked call sites also ±Inf), `some q`
  for the finite value `q`.  Decimal literals of the source (1e-10, 1e-6,
  0.39, ...) are modelled by the exact rationals they denote.
* A 2-D raster band is modelled as the flat list of its pixels; every
  numpy operation used by the source acts elementwise / positionally, so
  the 2-D layout is irrelevant to all properties proved here.  Bands fed
  to one computation share a shape (the repository's Raster invariant),
  so equal-shape bands become equal-length lists.
* `np.sqrt` of a non-negative float is irrational in general, hence not
  representable exactly; definitions needing it take a parameter
  `sqrtF : ℚ → ℚ` giving the value of the square root on non-negative
  arguments (negative arguments yield NaN as in numpy).  Theorems hold
  for every `sqrtF`.
-/

/-- A 64-bit float: `none` models a non-finite value, `some q` the finite value `q`. -/
abbrev F := Option ℚ

/-- Float addition: NaN propagates. -/
def fadd : F → F → F
  | some a, some b => some (a + b)
  | _, _ => none

/-- Float subtraction: NaN propagates. -/
def fsub : F → F → F
  | some a, some b => some (a - b)
  | _, _ => none

/-- Float multiplication: NaN propagates. -/
def fmul : F → F → F
  | some a, some b => some (a * b)
  | _, _ => none

/-- Float division: NaN propagates.  A zero divisor produces a non-finite
value (±Inf when the numerator is nonzero, NaN when it is zero); at every
use of this operation below the numerator is also zero whenever the
divisor is zero, so the `none` returned here always denotes NaN. -/
def fdiv : F → F → F
  | some a, some b => if b = 0 then none else some (a / b)
  | _, _ => none

/-- `np.sqrt` on a float: a negative argument yields NaN, a non-negative
one the abstract square-root value `sqrtF`. -/
def fsqrt (sqrtF : ℚ → ℚ) : F → F
  | some a => if a < 0 then none else some (sqrtF a)
  | none => none

/-- Minimum of two rationals, written out so it evaluates by unfolding. -/
def qmin (a b : ℚ) : ℚ := if a ≤ b then a else b

/-- Maximum of two rationals, written out so it evaluates by unfolding. -/
def qmax (a b : ℚ) : ℚ := if a ≤ b then b else a

/-- Minimum of two integers, written out so it evaluates by unfolding. -/
def zmin (a b : ℤ) : ℤ := if a ≤ b then a else b

/-- Maximum of two integers, written out so it evaluates by unfolding. -/
def zmax (a b : ℤ) : ℤ := if a ≤ b then b else a

/-- `np.clip(x, 0, 1)` on a float: NaN stays NaN (no ±Inf reaches a clip
in the modelled code, see `fdiv`). -/
def fclip01 (x : F) : F := x.map (fun v => qmin 1 (qmax 0 v))

/-- The non-NaN elements of an array (`a[~np.isnan(a)]`). -/
def nanvals (l : List F) : List ℚ := l.filterMap id

/-- `np.min` over a list, `none` when empty (where the source would raise). -/
def listMinD : List ℚ → Option ℚ
  | [] => none
  | x :: xs => some (xs.foldl qmin x)

/-- `np.max` over a list, `none` when empty (where the source would raise). -/
def listMaxD : List ℚ → Option ℚ
  | [] => none
  | x :: xs => some (xs.foldl qmax x)

/-- Sum of a list of rationals. -/
def qsum (l : List ℚ) : ℚ := l.foldl (· + ·) 0

/-- `np.nanmin` as a float: NaN when no valid element exists. -/
def nanminF (l : List F) : F := listMinD (nanvals l)

/-- `np.nanmax` as a float: NaN when no valid element exists. -/
def nanmaxF (l : List F) : F := listMaxD (nanvals l)

/-- Epsilon used by the NDVI denominator (`1e-10` in the source). -/
def ndviEps : ℚ := 1 / 10000000000

/-- One pixel of `calculate_ndvi_advanced`
(src/utils/advanced_vegetation.py lines 94–107): upcast to float,
`(nir - red) / (nir + red + 1e-10)`, replace non-finite results by 0,
clip to [-1, 1]. -/
def ndviElem (r n : F) : ℚ :=
  let v := fdiv (fsub n r) (fadd (fadd n r) (some ndviEps))
  qmin 1 (qmax (-1) (v.getD 0))

/-- Errors raised inside the `try` block of `calculate_ndvi_advanced`. -/
inductive NdviErr where
  /-- `ValueError("Invalid input bands")`: a band is `None`. -/
  | invalidBands : NdviErr
  /-- numpy broadcast error: band shapes differ. -/
  | shapeMismatch : NdviErr
deriving DecidableEq

/-- The `try` block of `calculate_ndvi_advanced` (lines 89–109): raises on a
`None` band or mismatched shapes, otherwise computes NDVI elementwise.
A band argument is `Option (List F)` because the Python function can
receive `None` in place of an array. -/
def ndviInner : Option (List F) → Option (List F) → Except NdviErr (List ℚ)
  | none, _ => .error .invalidBands
  | _, none => .error .invalidBands
  | some r, some n =>
    if r.length = n.length then .ok (List.zipWith ndviElem r n)
    else .error .shapeMismatch

/-- `np.zeros_like(red_band, dtype=np.float64)`: a zero array of the red
band's size; for a `None` band numpy builds a 0-d array holding a single
zero, modelled as `[0]`. -/
def zerosLike : Option (List F) → List ℚ
  | some r => List.replicate r.length 0
  | none => [0]

/-- `calculate_ndvi_advanced` (lines 85–114): the `try` body, with the
blanket `except` returning `np.zeros_like(red_band, dtype=np.float64)`. -/
def calculate_ndvi_advanced (r n : Option (List F)) : List ℚ :=
  match ndviInner r n with
  | .ok v => v
  | .error _ => zerosLike r

/-- One pixel of `calculate_gli_advanced` (lines 118–127): denominator
`2*green + red + blue`, exact zeros replaced by NaN before dividing,
no epsilon and no clamping. -/
def gliElem (r g b : F) : F :=
  let d := fadd (fadd (fmul (some 2) g) r) b
  let d := if d = some 0 then none else d
  fdiv (fsub (fsub (fmul (some 2) g) r) b) d

/-- `calculate_gli_advanced` (lines 118–127), elementwise over equal-shape
bands. -/
def calculate_gli_advanced (r g b : List F) : List F :=
  List.zipWith3 gliElem r g b

/-- Follows claim C3's words, for comparison with the source: GLI with an
additive epsilon `1e-10` in the denominator and the result clamped to
[-1, 1]. -/
def gliSpecElem (r g b : ℚ) : ℚ :=
  qmin 1 (qmax (-1) ((2 * g - r - b) / (2 * g + r + b + ndviEps)))

/-- The `RdYlGn_lut` lookup table of src/utils/advanced_vegetation.py
(lines 9–32): 132 RGB triples. -/
def RdYlGn_lut : List (ℕ × ℕ × ℕ) := [
  (165,0,38), (167,2,38), (169,4,38), (171,6,38), (173,8,38), (175,9,38),
  (177,11,38), (179,13,38), (181,15,38), (182,17,39), (184,19,39), (186,21,39),
  (188,23,39), (190,25,39), (192,27,39), (194,29,40), (196,31,40), (197,33,40),
  (199,35,40), (201,37,41), (203,39,41), (204,41,41), (206,43,42), (208,45,42),
  (209,47,43), (211,49,43), (212,51,44), (214,53,44), (215,56,45), (217,58,46),
  (218,60,46), (220,62,47), (221,64,48), (222,67,49), (224,69,50), (225,71,51),
  (226,74,51), (227,76,52), (228,78,53), (229,81,54), (231,83,55), (232,85,56),
  (233,88,57), (234,90,58), (235,93,60), (236,95,61), (237,97,62), (237,100,63),
  (238,102,64), (239,105,65), (240,107,66), (240,110,68), (241,112,69), (242,115,70),
  (242,117,71), (243,120,73), (243,122,74), (244,125,75), (244,127,77), (245,130,78),
  (245,132,79), (246,135,81), (246,137,82), (247,140,84), (247,142,85), (248,145,87),
  (248,147,88), (248,150,90), (249,152,91), (249,155,93), (249,158,94), (250,160,96),
  (250,163,98), (250,165,99), (251,168,101), (251,170,103), (251,173,104), (251,175,106),
  (252,178,108), (252,180,109), (252,183,111), (252,186,113), (252,188,115), (253,191,116),
  (253,193,118), (253,196,120), (253,198,122), (253,201,124), (253,203,125), (254,206,127),
  (254,208,129), (254,211,131), (254,214,133), (254,216,135), (254,219,137), (254,221,139),
  (254,224,141), (254,226,143), (254,229,145), (254,231,147), (254,234,149), (254,236,151),
  (254,239,153), (254,241,155), (254,244,157), (254,246,160), (254,249,162), (254,251,164),
  (254,254,166), (253,254,168), (251,254,170), (250,254,172), (248,254,175), (247,254,177),
  (245,254,179), (244,254,181), (242,254,183), (241,254,185), (239,254,188), (238,254,190),
  (236,254,192), (235,254,194), (233,254,196), (232,254,199), (230,254,201), (229,254,203),
  (227,254,205), (226,254,207), (224,254,210), (223,254,212), (221,254,214), (220,254,216)]

/-- One RGB triple of a color image; channel values are floats. -/
abbrev Color := F × F × F

/-- Entry `i` of `np.array(RdYlGn_lut) / 255.0`, as an RGB color (indices
used by the source are always in range; out of range defaults to black). -/
def lutColor (i : ℕ) : Color :=
  let t := RdYlGn_lut.getD i (0, 0, 0)
  (some ((t.1 : ℚ) / 255), some ((t.2.1 : ℚ) / 255), some ((t.2.2 : ℚ) / 255))

/-- Truncation toward zero, the effect of numpy's `astype(int)` on a float. -/
def truncInt (q : ℚ) : ℤ :=
  if q < 0 then -(Int.floor (-q)) else Int.floor q

/-- The lookup index the source computes for a normalized value
(lines 67–68): `(normalized * (len(lut) - 1)).astype(int)` then
`np.clip(indices, 0, len(lut) - 1)`. -/
def codeIdx (n : ℚ) : ℕ := (zmin 131 (zmax 0 (truncInt (n * 131)))).toNat

/-- Follows claim C7's words, for comparison with the source: lookup index
`round(normalized * (N - 1))` clipped to the valid index range. -/
def specIdx (n : ℚ) : ℕ := (zmin 131 (zmax 0 (round (n * 131)))).toNat

/-- `np.nanmin(data)` in the branch where at least one valid value exists
(the source guards this with the all-NaN check). -/
def nanminQ (l : List F) : ℚ := (listMinD (nanvals l)).getD 0

/-- `np.nanmax(data)` in the branch where at least one valid value exists. -/
def nanmaxQ (l : List F) : ℚ := (listMaxD (nanvals l)).getD 0

/-- The display minimum of `apply_colormap` (line 48–49): the caller's
`min_val` or, when omitted, `np.nanmin(data)`. -/
def cmLo (data : List F) (minv : Option ℚ) : ℚ := minv.getD (nanminQ data)

/-- The display maximum of `apply_colormap` (lines 50–55): the caller's
`max_val` or `np.nanmax(data)`, widened by `1e-6` when it equals the
minimum. -/
def cmHi (data : List F) (minv maxv : Option ℚ) : ℚ :=
  let lo := cmLo data minv
  let hi := maxv.getD (nanmaxQ data)
  if hi = lo then lo + 1 / 1000000 else hi

/-- The normalized value of one pixel (lines 57–60): NaN pixels keep the
0.0 the output array was initialised with, valid pixels get
`(x - min) / (max - min)`; the whole array is then clipped to [0, 1]. -/
def normVal (lo hi : ℚ) (x : F) : ℚ :=
  match x with
  | some v => qmin 1 (qmax 0 ((v - lo) / (hi - lo)))
  | none => qmin 1 (qmax 0 0)

/-- Errors raised inside the `try` block of `apply_colormap`. -/
inductive CmapErr where
  /-- `ValueError("Invalid input data")`: empty input (also raised by
  `np.nanmin` on an empty array in the fallback path). -/
  | invalidInput : CmapErr
  /-- `ValueError("All data values are NaN")`. -/
  | allNaN : CmapErr
deriving DecidableEq

/-- Modelled from the spec: any palette other than the fixed ramp
delegates to matplotlib's continuous colormap keyed by name (external
library code, absent from src/); its pointwise colors are irrelevant to
every claim, so an arbitrary grayscale stand-in is used. -/
def continuousCmap (_ : String) (n : ℚ) : Color := (some n, some n, some n)

/-- The `try` block of `apply_colormap`
(src/utils/advanced_vegetation.py lines 38–77): validate, derive the
display range, normalize, and look colors up in the palette. -/
def applyColormapInner (data : List F) (palette : String) (minv maxv : Option ℚ) :
    Except CmapErr (List Color) :=
  if data.length = 0 then .error .invalidInput
  else if nanvals data = [] then .error .allNaN
  else
    let lo := cmLo data minv
    let hi := cmHi data minv maxv
    let normalized := data.map (normVal lo hi)
    if palette = "rdylgn" then
      .ok (normalized.map (fun n => lutColor (codeIdx n)))
    else
      .ok (normalized.map (fun n => continuousCmap palette n))

/-- The `except` handler of `apply_colormap` (lines 79–83): grayscale
fallback `np.clip((data - nanmin) / (nanmax - nanmin), 0, 1)` replicated
over three channels; `np.nanmin` of an empty array raises out of the
handler itself. -/
def grayFallback (data : List F) : Except CmapErr (List Color) :=
  if data.length = 0 then .error .invalidInput
  else
    let lo := nanminF data
    let hi := nanmaxF data
    .ok (data.map (fun x =>
      let g := fclip01 (fdiv (fsub x lo) (fsub hi lo))
      (g, g, g)))

/-- `apply_colormap` (lines 34–83): the `try` body with every internal
failure routed to the grayscale fallback. -/
def apply_colormap (data : List F) (palette : String) (minv maxv : Option ℚ) :
    Except CmapErr (List Color) :=
  match applyColormapInner data palette minv maxv with
  | .ok img => .ok img
  | .error _ => grayFallback data

/-- `np.histogram(data, bins, range=(lo, hi))`: `bins` evenly spaced bins
over [lo, hi]; a reversed range or a zero bin count raises (`none`); an
equal-endpoint range is widened by 0.5 on each side as numpy does; each
bin is half-open except the last, which includes the upper edge; values
outside the range are ignored.  Returns (counts, bin edges). -/
def npHistogram (data : List ℚ) (bins : ℕ) (lo hi : ℚ) :
    Option (List ℕ × List ℚ) :=
  if bins = 0 then none
  else if hi < lo then none
  else
    let lo' := if lo = hi then lo - 1/2 else lo
    let hi' := if lo = hi then hi + 1/2 else hi
    let edge : ℕ → ℚ := fun i => lo' + (hi' - lo') * i / bins
    let counts := (List.range bins).map (fun i =>
      (data.filter (fun x =>
        decide (edge i ≤ x) &&
          (decide (x < edge (i + 1)) ||
            (decide (i = bins - 1) && decide (x ≤ hi'))))).length)
    some (counts, (List.range (bins + 1)).map edge)

/-- `band_data[mask]` when a boolean mask is supplied, otherwise
`band_data.flatten()` (the identity on an already-flat band). -/
def applyMask (mask : Option (List Bool)) (band : List F) : List F :=
  match mask with
  | none => band
  | some m => (band.zip m).filterMap (fun p => if p.2 then some p.1 else none)

/-- The multi-band (`len(image_data.shape) == 3`) branch of
`calculate_histogram` (src/utils/histogram_geotiff.py lines 98–119),
including the loop that reassigns `range_values` after the first band so
that later bands reuse the first band's derived range.  `none` models the
`except` handler returning `None` (reached when `np.min`/`np.max` raise on
a band that is empty after NaN removal while the range is still unset, or
when `np.histogram` itself raises). -/
def calculate_histogram : List (List F) → ℕ → Option (ℚ × ℚ) →
    Option (List Bool) → Option (List (List ℕ × List ℚ))
  | [], _, _, _ => some []
  | b :: bs, bins, range_values, mask =>
    let clean := nanvals (applyMask mask b)
    let rv : Option (ℚ × ℚ) :=
      match range_values with
      | some p => some p
      | none =>
        match listMinD clean, listMaxD clean with
        | some lo, some hi => some (lo, hi)
        | _, _ => none
    match rv with
    | none => none
    | some (lo, hi) =>
      match npHistogram clean bins lo hi, calculate_histogram bs bins (some (lo, hi)) mask with
      | some h, some rest => some (h :: rest)
      | _, _ => none

/-- Follows claim C2's words, for comparison with the source: the same
per-band histogram computation but with the value range derived from each
band's own non-NaN min/max, independently per band. -/
def calcHistPerBand : List (List F) → ℕ → Option (ℚ × ℚ) →
    Option (List Bool) → Option (List (List ℕ × List ℚ))
  | [], _, _, _ => some []
  | b :: bs, bins, range_values, mask =>
    let clean := nanvals (applyMask mask b)
    let rv : Option (ℚ × ℚ) :=
      match range_values with
      | some p => some p
      | none =>
        match listMinD clean, listMaxD clean with
        | some lo, some hi => some (lo, hi)
        | _, _ => none
    match rv with
    | none => none
    | some (lo, hi) =>
      match npHistogram clean bins lo hi, calcHistPerBand bs bins range_values mask with
      | some h, some rest => some (h :: rest)
      | _, _ => none

/-- Helper naming the behaviour the source actually has after the first
band: every remaining band is histogrammed against one fixed range. -/
def histWithRange : List (List F) → ℕ → ℚ → ℚ → Option (List (List ℕ × List ℚ))
  | [], _, _, _ => some []
  | b :: bs, bins, lo, hi =>
    match npHistogram (nanvals b) bins lo hi, histWithRange bs bins lo hi with
    | some h, some rest => some (h :: rest)
    | _, _ => none

/-- Mean of a non-empty list of rationals (`np.mean`); 0 on empty. -/
def meanQ (l : List ℚ) : ℚ := qsum l / l.length

/-- Population variance (`np.var`, the square of `np.std`); 0 on empty. -/
def varQ (l : List ℚ) : ℚ :=
  qsum (l.map (fun y => (y - meanQ l) ^ 2)) / l.length

/-- Insertion into a sorted list, for the sort behind `np.median`. -/
def insertSorted (x : ℚ) : List ℚ → List ℚ
  | [] => [x]
  | y :: ys => if x ≤ y then x :: y :: ys else y :: insertSorted x ys

/-- Sorting a list of rationals. -/
def sortQ (l : List ℚ) : List ℚ := l.foldr insertSorted []

/-- `np.median`: middle element of the sorted list, or the mean of the two
middle elements; `none` (NaN) on an empty list. -/
def medianD (l : List ℚ) : Option ℚ :=
  let s := sortQ l
  let n := s.length
  if n = 0 then none
  else if n % 2 = 1 then s.get? (n / 2)
  else
    match s.get? (n / 2 - 1), s.get? (n / 2) with
    | some a, some b => some ((a + b) / 2)
    | _, _ => none

/-- `np.nanmean`: NaN when no valid element exists. -/
def nanmeanF (l : List F) : F :=
  match nanvals l with
  | [] => none
  | v => some (meanQ v)

/-- `np.nanvar` (the square of `np.nanstd`): NaN when no valid element
exists. -/
def nanvarF (l : List F) : F :=
  match nanvals l with
  | [] => none
  | v => some (varQ v)

/-- `np.nanmedian`: NaN when no valid element exists. -/
def nanmedianF (l : List F) : F := medianD (nanvals l)

/-- The statistics dictionary built by `analyze_vegetation_comprehensive`
(src/utils/advanced_vegetation.py lines 341–347).  The source stores
`np.nanstd(result)`; since `nanstd = sqrt(nanvar)` and the square root of
a rational is irrational in general, the variance is stored and the
standard deviation is recovered by `NanStats.std`. -/
structure NanStats where
  min : F
  max : F
  mean : F
  var : F
  median : F
deriving DecidableEq

/-- `np.nanstd`, the square root of the stored variance (the variance is
never negative, so `sqrtF` is consulted directly). -/
def NanStats.std (sqrtF : ℚ → ℚ) (s : NanStats) : F := s.var.map sqrtF

/-- The five `np.nan*` statistics of lines 341–347. -/
def nanStats (l : List F) : NanStats :=
  { min := nanminF l, max := nanmaxF l, mean := nanmeanF l,
    var := nanvarF l, median := nanmedianF l }

/-- Error raised inside the statistics loop of
`process_geotiff_histogram`. -/
inductive StatErr where
  /-- `ValueError` from `np.min` of an empty (all-NaN) band. -/
  | emptyBand : StatErr
deriving DecidableEq

/-- The per-band statistics record of `process_geotiff_histogram`
(src/utils/histogram_geotiff.py lines 224–232); `var` stores the square of
the recorded `np.std`, recovered by `BandStatsQ.std`. -/
structure BandStatsQ where
  band : ℕ
  min : ℚ
  max : ℚ
  mean : ℚ
  var : ℚ
  median : ℚ
  count : ℕ
deriving DecidableEq

/-- `np.std` of the band, the square root of the stored variance. -/
def BandStatsQ.std (sqrtF : ℚ → ℚ) (s : BandStatsQ) : ℚ := sqrtF s.var

/-- One iteration of the statistics loop (lines 214–233): flatten the
band, drop NaNs, and compute min/max/mean/std/median/count; `np.min` of an
empty array raises. -/
def bandStatsE (i : ℕ) (band : List F) : Except StatErr BandStatsQ :=
  match nanvals band with
  | [] => .error .emptyBand
  | x :: xs =>
    .ok { band := i + 1, min := xs.foldl qmin x, max := xs.foldl qmax x,
          mean := meanQ (x :: xs), var := varQ (x :: xs),
          median := (medianD (x :: xs)).getD 0, count := (x :: xs).length }

/-- The statistics loop over all bands, raising on the first empty band. -/
def statsLoop : ℕ → List (List F) → Except StatErr (List BandStatsQ)
  | _, [] => .ok []
  | i, b :: bs =>
    match bandStatsE i b, statsLoop (i + 1) bs with
    | .ok s, .ok rest => .ok (s :: rest)
    | .error e, _ => .error e
    | _, .error e => .error e

/-- The statistics portion of `process_geotiff_histogram`
(src/utils/histogram_geotiff.py lines 182–247): the function first runs
`calculate_histogram` (returning `None` when that returns `None`), then
computes per-band statistics; any exception in the loop is caught by the
surrounding handler, which returns `None`. -/
def process_geotiff_histogram_stats (data : List (List F)) (bins : ℕ) :
    Option (List BandStatsQ) :=
  match calculate_histogram data bins none none with
  | none => none
  | some _ => (statsLoop 0 data).toOption

/-- One pixel of `calculate_vari_advanced` (advanced_vegetation.py lines
129–138): denominator `green + red - blue`, exact zeros replaced by NaN. -/
def variElem (r g b : F) : F :=
  let d := fsub (fadd g r) b
  let d := if d = some 0 then none else d
  fdiv (fsub g r) d

/-- `calculate_vari_advanced`, elementwise. -/
def calculate_vari_advanced (r g b : List F) : List F := List.zipWith3 variElem r g b

/-- One pixel of `calculate_ndwi_advanced` (lines 140–149). -/
def ndwiElem (g n : F) : F :=
  let d := fadd g n
  let d := if d = some 0 then none else d
  fdiv (fsub g n) d

/-- `calculate_ndwi_advanced`, elementwise. -/
def calculate_ndwi_advanced (g n : List F) : List F := List.zipWith ndwiElem g n

/-- One pixel of `calculate_savi_advanced` (lines 151–160); the source's
default `l_factor` is 0.5 and the dispatcher always uses it. -/
def saviElem (l_factor : ℚ) (r n : F) : F :=
  let d := fadd (fadd n r) (some l_factor)
  let d := if d = some 0 then none else d
  fdiv (fmul (fsub n r) (some (1 + l_factor))) d

/-- `calculate_savi_advanced`, elementwise. -/
def calculate_savi_advanced (r n : List F) (l_factor : ℚ) : List F :=
  List.zipWith (saviElem l_factor) r n

/-- One pixel of `calculate_evi_advanced` (lines 162–171): denominator
`nir + 6*red - 7.5*blue + 1`, exact zeros replaced by NaN. -/
def eviElem (r n b : F) : F :=
  let d := fadd (fsub (fadd n (fmul (some 6) r)) (fmul (some (15/2)) b)) (some 1)
  let d := if d = some 0 then none else d
  fdiv (fmul (some (5/2)) (fsub n r)) d

/-- `calculate_evi_advanced`, elementwise. -/
def calculate_evi_advanced (r n b : List F) : List F := List.zipWith3 eviElem r n b

/-- One pixel of `calculate_tgi_advanced` (lines 173–179):
`green - 0.39*red - 0.61*blue`. -/
def tgiElem (r g b : F) : F :=
  fsub (fsub g (fmul (some (39/100)) r)) (fmul (some (61/100)) b)

/-- `calculate_tgi_advanced`, elementwise. -/
def calculate_tgi_advanced (r g b : List F) : List F := List.zipWith3 tgiElem r g b

/-- One pixel of `calculate_msavi_advanced` (lines 181–187):
`(2*nir + 1 - sqrt((2*nir + 1)**2 - 8*(nir - red))) / 2`. -/
def msaviElem (sqrtF : ℚ → ℚ) (r n : F) : F :=
  let t := fadd (fmul (some 2) n) (some 1)
  fdiv (fsub t (fsqrt sqrtF (fsub (fmul t t) (fmul (some 8) (fsub n r))))) (some 2)

/-- `calculate_msavi_advanced`, elementwise. -/
def calculate_msavi_advanced (sqrtF : ℚ → ℚ) (r n : List F) : List F :=
  List.zipWith (msaviElem sqrtF) r n

/-- One pixel of `calculate_osavi_advanced` (lines 189–198); the source's
default `y_factor` is 0.16 and the dispatcher always uses it. -/
def osaviElem (y_factor : ℚ) (r n : F) : F :=
  let d := fadd (fadd n r) (some y_factor)
  let d := if d = some 0 then none else d
  fdiv (fsub n r) d

/-- `calculate_osavi_advanced`, elementwise. -/
def calculate_osavi_advanced (r n : List F) (y_factor : ℚ) : List F :=
  List.zipWith (osaviElem y_factor) r n

/-- One pixel of `calculate_rdvi_advanced` (lines 208–217): denominator
`sqrt(nir + red)` (NaN when the sum is negative), exact zeros replaced by
NaN. -/
def rdviElem (sqrtF : ℚ → ℚ) (r n : F) : F :=
  let d := fsqrt sqrtF (fadd n r)
  let d := if d = some 0 then none else d
  fdiv (fsub n r) d

/-- `calculate_rdvi_advanced`, elementwise. -/
def calculate_rdvi_advanced (sqrtF : ℚ → ℚ) (r n : List F) : List F :=
  List.zipWith (rdviElem sqrtF) r n

/-- One pixel of `calculate_gndvi_advanced` (lines 219–228). -/
def gndviElem (g n : F) : F :=
  let d := fadd n g
  let d := if d = some 0 then none else d
  fdiv (fsub n g) d

/-- `calculate_gndvi_advanced`, elementwise. -/
def calculate_gndvi_advanced (g n : List F) : List F := List.zipWith gndviElem g n

/-- One pixel of `calculate_cvi_advanced` (lines 230–236):
`(nir*red)/green**2` with no zero guard — a zero green yields a
non-finite value (`none`, see `fdiv`). -/
def cviElem (r g n : F) : F := fdiv (fmul n r) (fmul g g)

/-- `calculate_cvi_advanced`, elementwise. -/
def calculate_cvi_advanced (r g n : List F) : List F := List.zipWith3 cviElem r g n

/-- One pixel of `calculate_arvi_advanced` (lines 238–247): denominator
`nir + red - blue`, exact zeros replaced by NaN. -/
def arviElem (r n b : F) : F :=
  let d := fsub (fadd n r) b
  let d := if d = some 0 then none else d
  fdiv (fsub n r) d

/-- `calculate_arvi_advanced`, elementwise. -/
def calculate_arvi_advanced (r n b : List F) : List F := List.zipWith3 arviElem r n b

/-- One pixel of `calculate_gci_advanced` (lines 249–255):
`(nir/green) - 1` with no zero guard — a zero green yields a non-finite
value (`none`, see `fdiv`).  The function's red band plays no part in the
formula. -/
def gciElem (g n : F) : F := fsub (fdiv n g) (some 1)

/-- `calculate_gci_advanced`, elementwise (its `red_band` parameter is
unused, as in the source). -/
def calculate_gci_advanced (_r g n : List F) : List F := List.zipWith gciElem g n

/-- The keys of `VEGETATION_ALGORITHMS` (lines 258–273). -/
def supportedAlgorithms : List String :=
  ["ndvi", "gli", "vari", "ndwi", "savi", "evi", "tgi",
   "msavi", "osavi", "rdvi", "gndvi", "cvi", "arvi", "gci"]

/-- The `image_bands` dictionary handed to
`analyze_vegetation_comprehensive`: each role maps to a band or is
absent (`None` / missing key — `dict.get` returns `None` for both). -/
structure BandSet where
  red : Option (List F)
  green : Option (List F)
  blue : Option (List F)
  nir : Option (List F)

/-- Errors raised inside the `try` block of
`analyze_vegetation_comprehensive`. -/
inductive VegErr where
  /-- `ValueError` for an algorithm name absent from
  `VEGETATION_ALGORITHMS` (lines 280–281 and 334–335). -/
  | unsupportedAlgorithm (name : String) : VegErr
  /-- `ValueError` for a band role the requested algorithm needs but the
  band set lacks. -/
  | missingBands (name : String) : VegErr
  /-- an exception escaping `apply_colormap` (only possible for empty
  input, where the fallback's `np.nanmin` raises). -/
  | colormapFailed (e : CmapErr) : VegErr
deriving DecidableEq

/-- The band-extraction and dispatch part of
`analyze_vegetation_comprehensive` (lines 283–335), producing the raw
index array. -/
def analyzeResult (sqrtF : ℚ → ℚ) (image_bands : BandSet) (algorithm : String) :
    Except VegErr (List F) :=
  if algorithm ∈ ["ndvi", "savi", "msavi", "osavi", "rdvi", "gndvi"] then
    match image_bands.red, image_bands.nir with
    | some red_band, some nir_band =>
      .ok (if algorithm = "ndvi" then
             (calculate_ndvi_advanced (some red_band) (some nir_band)).map some
           else if algorithm = "savi" then calculate_savi_advanced red_band nir_band (1/2)
           else if algorithm = "msavi" then calculate_msavi_advanced sqrtF red_band nir_band
           else if algorithm = "osavi" then calculate_osavi_advanced red_band nir_band (4/25)
           else if algorithm = "rdvi" then calculate_rdvi_advanced sqrtF red_band nir_band
           else calculate_gndvi_advanced red_band nir_band)
    | _, _ => .error (.missingBands algorithm)
  else if algorithm ∈ ["gli", "vari", "tgi", "evi", "arvi"] then
    match image_bands.red, image_bands.green, image_bands.blue with
    | some red_band, some green_band, some blue_band =>
      if algorithm = "evi" ∨ algorithm = "arvi" then
        match image_bands.nir with
        | some nir_band =>
          .ok (if algorithm = "evi" then calculate_evi_advanced red_band nir_band blue_band
               else calculate_arvi_advanced red_band nir_band blue_band)
        | none => .error (.missingBands algorithm)
      else
        .ok (if algorithm = "gli" then calculate_gli_advanced red_band green_band blue_band
             else if algorithm = "vari" then calculate_vari_advanced red_band green_band blue_band
             else calculate_tgi_advanced red_band green_band blue_band)
    | _, _, _ => .error (.missingBands algorithm)
  else if algorithm = "ndwi" then
    match image_bands.green, image_bands.nir with
    | some green_band, some nir_band => .ok (calculate_ndwi_advanced green_band nir_band)
    | _, _ => .error (.missingBands algorithm)
  else if algorithm ∈ ["cvi", "gci"] then
    match image_bands.red, image_bands.green, image_bands.nir with
    | some red_band, some green_band, some nir_band =>
      .ok (if algorithm = "cvi" then calculate_cvi_advanced red_band green_band nir_band
           else calculate_gci_advanced red_band green_band nir_band)
    | _, _, _ => .error (.missingBands algorithm)
  else .error (.unsupportedAlgorithm algorithm)

/-- The dictionary returned by `analyze_vegetation_comprehensive`
(lines 349–355). -/
structure AnalysisOut where
  analysis_data : List F
  colored_image : List Color
  statistics : NanStats
  algorithm : String
  colormap : String
deriving DecidableEq

/-- The `try` block of `analyze_vegetation_comprehensive` (lines 279–355):
unknown-algorithm check, dispatch, colormap application, and statistics. -/
def analyzeInner (sqrtF : ℚ → ℚ) (image_bands : BandSet)
    (algorithm colormap : String) : Except VegErr AnalysisOut :=
  if algorithm ∈ supportedAlgorithms then
    match analyzeResult sqrtF image_bands algorithm with
    | .error e => .error e
    | .ok result =>
      match apply_colormap result colormap none none with
      | .error e => .error (.colormapFailed e)
      | .ok colored =>
        .ok { analysis_data := result, colored_image := colored,
              statistics := nanStats result, algorithm := algorithm,
              colormap := colormap }
  else .error (.unsupportedAlgorithm algorithm)

/-- `analyze_vegetation_comprehensive` (lines 275–359): every exception of
the `try` body is caught by the blanket handler, which prints and returns
`None`. -/
def analyze_vegetation_comprehensive (sqrtF : ℚ → ℚ) (image_bands : BandSet)
    (algorithm colormap : String) : Option AnalysisOut :=
  (analyzeInner sqrtF image_bands algorithm colormap).toOption

/-- numpy dtypes as far as `write_geotiff` distinguishes them. -/
inductive DType where
  | float32 : DType
  | float64 : DType
  | uint8 : DType
  | uint16 : DType
  /-- any dtype outside the four recognised ones (int16, int32, ...). -/
  | other (name : String) : DType
deriving DecidableEq

/-- A numpy array as `write_geotiff` consumes it: its shape, dtype and
flattened payload (float payloads; integer payloads are rational-valued
too). -/
structure NpArray where
  shape : List ℕ
  dtype : DType
  data : List ℚ

/-- The metadata dictionary as consumed by `write_geotiff`: `get` of a
missing key yields `None`.  CRS and transform are opaque values passed
through unchanged. -/
structure GeoMeta where
  crs : Option String
  transform : Option String

/-- The on-disk raster `write_geotiff` produces via `rasterio.open(...,
'w', ...)` and `dst.write(data)`. -/
structure WrittenTiff where
  height : ℕ
  width : ℕ
  count : ℕ
  dtype : DType
  crs : Option String
  transform : Option String
  compress : String
  data : List ℚ
deriving DecidableEq

/-- `write_geotiff` (src/utils/histogram_geotiff.py lines 48–89): promote
a 2-D array to one band, pick the on-disk dtype (keeping float32 /
float64 / uint8 / uint16 and casting anything else to float32 — the cast
keeps the modelled payload values), and write with the metadata's CRS and
transform.  `none` models the `except` handler returning `False` (reached
when `count, height, width = data.shape` fails to unpack). -/
def write_geotiff (data : NpArray) (metadata : GeoMeta) (compress : String) :
    Option WrittenTiff :=
  let arr := if data.shape.length = 2 then { data with shape := 1 :: data.shape } else data
  match arr.shape with
  | [count, height, width] =>
    let out : DType × NpArray :=
      if arr.dtype = .float32 then (.float32, arr)
      else if arr.dtype = .float64 then (.float64, arr)
      else if arr.dtype = .uint8 then (.uint8, arr)
      else if arr.dtype = .uint16 then (.uint16, arr)
      else (.float32, { arr with dtype := .float32 })
    some { height := height, width := width, count := count, dtype := out.1,
           crs := metadata.crs, transform := metadata.transform,
           compress := compress, data := out.2.data }
  | _ => none


/-- `qmin` is bounded by its left argument. -/
theorem qmin_le_left (a b : ℚ) : qmin a b ≤ a := by
  unfold qmin
  split
  · exact le_refl a
  · exact le_of_not_le (by assumption)

/-- `qmax` dominates its left argument. -/
theorem le_qmax_left (a b : ℚ) : a ≤ qmax a b := by
  unfold qmax
  split
  · assumption
  · exact le_refl a

/-- A common lower bound of both arguments bounds `qmin`. -/
theorem le_qmin {c a b : ℚ} (h1 : c ≤ a) (h2 : c ≤ b) : c ≤ qmin a b := by
  unfold qmin
  split
  · exact h1
  · exact h2

/-- Elementwise properties lift through `List.zipWith`. -/
theorem forall_mem_zipWith {α β γ : Type} {f : α → β → γ} {P : γ → Prop}
    (h : ∀ a b, P (f a b)) :
    ∀ (l1 : List α) (l2 : List β), ∀ y ∈ List.zipWith f l1 l2, P y := by
  intro l1
  induction l1 with
  | nil => intro l2 y hy; simp at hy
  | cons x xs ih =>
    intro l2 y hy
    cases l2 with
    | nil => simp at hy
    | cons z zs =>
      simp only [List.zipWith, List.mem_cons] at hy
      rcases hy with hy | hy
      · exact hy ▸ h x z
      · exact ih zs y hy

/-- Every NDVI pixel lies in [-1, 1]: the final clip guarantees it. -/
theorem ndviElem_mem_Icc (r n : F) : -1 ≤ ndviElem r n ∧ ndviElem r n ≤ 1 := by
  unfold ndviElem
  exact ⟨le_qmin (by norm_num) (le_qmax_left _ _), qmin_le_left _ _⟩

/-- Claim C1: for every pair of finite non-negative equal-shape band
arrays, `calculate_ndvi_advanced` returns an array every element of which
lies within [-1, 1] inclusive (epsilon denominator, non-finite values
replaced by 0, result clamped). -/
theorem ndvi_range_C1 (red nir : List ℚ) (hlen : red.length = nir.length)
    (_hred : ∀ x ∈ red, 0 ≤ x) (_hnir : ∀ x ∈ nir, 0 ≤ x) :
    ∀ y ∈ calculate_ndvi_advanced (some (red.map some)) (some (nir.map some)),
      -1 ≤ y ∧ y ≤ 1 := by
  have h : calculate_ndvi_advanced (some (red.map some)) (some (nir.map some)) =
      List.zipWith ndviElem (red.map some) (nir.map some) := by
    unfold calculate_ndvi_advanced ndviInner
    simp [hlen]
  rw [h]
  exact forall_mem_zipWith (fun a b => ndviElem_mem_Icc a b) _ _

/-- Witness for C1 at red = [0], nir = [0]. -/
theorem ndvi_range_C1_witness :
    -1 ≤ (calculate_ndvi_advanced (some [some 0]) (some [some 0])).headD 0 ∧
    (calculate_ndvi_advanced (some [some 0]) (some [some 0])).headD 0 ≤ 1 :=
  ndvi_range_C1 [0] [0] rfl (by simp) (by simp) _
    (by norm_num [calculate_ndvi_advanced, ndviInner, ndviElem, fdiv, fsub, fadd,
          ndviEps, qmin, qmax])

/-- Claim C10: `calculate_ndvi_advanced` never raises — whenever its `try`
body fails (a `None` band, mismatched shapes) it returns the all-zero
float64 array shaped like the red band, indistinguishable from a genuine
all-zero NDVI result such as the one produced by equal bands. -/
theorem ndvi_fallback_C10 (r n : Option (List F)) (e : NdviErr)
    (h : ndviInner r n = .error e) :
    calculate_ndvi_advanced r n = zerosLike r ∧
    (∀ x ∈ calculate_ndvi_advanced r n, x = 0) ∧
    calculate_ndvi_advanced none (some [some 0]) =
      calculate_ndvi_advanced (some [some 1]) (some [some 1]) := by
  have hc : calculate_ndvi_advanced r n = zerosLike r := by
    unfold calculate_ndvi_advanced
    rw [h]
  refine ⟨hc, ?_, ?_⟩
  · rw [hc]
    cases r with
    | none => intro x hx; simpa [zerosLike] using hx
    | some l =>
      intro x hx
      rw [zerosLike] at hx
      exact List.eq_of_mem_replicate hx
  · norm_num [calculate_ndvi_advanced, ndviInner, ndviElem, zerosLike, fdiv,
      fsub, fadd, ndviEps, qmin, qmax]

/-- Witness for C10 at a `None` red band. -/
theorem ndvi_fallback_C10_witness :
    calculate_ndvi_advanced none (some [some 0]) = zerosLike none :=
  (ndvi_fallback_C10 none (some [some 0]) .invalidBands rfl).1

/-- Counterexample to claim C3 as stated: GLI at red 0, green 1, blue −3
is −5, outside [-1, 1] (so the output is not clamped to [-1, 1]), and at
an all-zero pixel it is NaN (zero denominator replaced by NaN, no
epsilon); the claim's epsilon-and-clamp version `gliSpecElem` would give
−1 and 0 at those pixels instead. -/
theorem gli_C3_counterexample :
    calculate_gli_advanced [some 0, some 0] [some 1, some 0] [some (-3), some 0] =
      [some (-5), none] ∧
    ¬(-1 ≤ (-5 : ℚ)) ∧
    gliSpecElem 0 1 (-3) = -1 ∧ gliSpecElem 0 0 0 = 0 := by
  refine ⟨?_, by norm_num, ?_, ?_⟩
  · show List.zipWith3 gliElem _ _ _ = _
    norm_num [List.zipWith3, gliElem, fadd, fsub, fmul, fdiv]
  · norm_num [gliSpecElem, ndviEps, qmin, qmax]
  · norm_num [gliSpecElem, ndviEps, qmin, qmax]

/-- One GLI pixel on finite inputs, in closed form. -/
theorem gliElem_some (r g b : ℚ) :
    gliElem (some r) (some g) (some b) =
      if 2 * g + r + b = 0 then none
      else some ((2 * g - r - b) / (2 * g + r + b)) := by
  unfold gliElem
  simp only [fmul, fadd, fsub, fdiv]
  by_cases h : 2 * g + r + b = 0 <;> simp [h]

/-- Claim C3 (amended): `calculate_gli_advanced` substitutes NaN for
exact-zero denominators (no additive epsilon) and applies no clamping —
each element equals (2g−r−b)/(2g+r+b) when the denominator is nonzero
and NaN when it is zero, and can lie outside [-1, 1]. -/
theorem gli_nan_unclamped_C3 (rs gs bs : List ℚ) :
    calculate_gli_advanced (rs.map some) (gs.map some) (bs.map some) =
      List.zipWith3 (fun r g b =>
        if 2 * g + r + b = 0 then none
        else some ((2 * g - r - b) / (2 * g + r + b))) rs gs bs := by
  induction rs generalizing gs bs with
  | nil => rfl
  | cons r rs ih =>
    cases gs with
    | nil => rfl
    | cons g gs =>
      cases bs with
      | nil => rfl
      | cons b bs =>
        have ht := ih gs bs
        unfold calculate_gli_advanced at ht
        show gliElem (some r) (some g) (some b) ::
            List.zipWith3 gliElem (rs.map some) (gs.map some) (bs.map some) =
          (if 2 * g + r + b = 0 then none
           else some ((2 * g - r - b) / (2 * g + r + b))) ::
            List.zipWith3 (fun r g b =>
              if 2 * g + r + b = 0 then none
              else some ((2 * g - r - b) / (2 * g + r + b))) rs gs bs
        rw [gliElem_some, ht]

/-- Counterexample to claim C2 as stated: on the two-band input
[[0, 1], [10, 20]] with the range omitted, the source reuses the first
band's range (0, 1) for the second band, whose bin edges come out as
[0, 1/2, 1] with zero counts, while the claim's independent-per-band
version `calcHistPerBand` gives the second band its own edges
[10, 15, 20]. -/
theorem histogram_range_C2_counterexample :
    calculate_histogram [[some 0, some 1], [some 10, some 20]] 2 none none =
      some [([1, 1], [0, 1/2, 1]), ([0, 0], [0, 1/2, 1])] ∧
    calcHistPerBand [[some 0, some 1], [some 10, some 20]] 2 none none =
      some [([1, 1], [0, 1/2, 1]), ([1, 1], [10, 15, 20])] ∧
    calculate_histogram [[some 0, some 1], [some 10, some 20]] 2 none none ≠
      calcHistPerBand [[some 0, some 1], [some 10, some 20]] 2 none none := by
  refine ⟨?_, ?_, ?_⟩
  · norm_num [calculate_histogram, applyMask, nanvals, listMinD, listMaxD,
      npHistogram, qmin, qmax, List.range_succ, List.filter,
      List.filterMap_cons, List.filterMap_nil, id_eq, List.foldl]
  · norm_num [calcHistPerBand, applyMask, nanvals, listMinD, listMaxD,
      npHistogram, qmin, qmax, List.range_succ, List.filter,
      List.filterMap_cons, List.filterMap_nil, id_eq, List.foldl]
  · norm_num [calculate_histogram, calcHistPerBand, applyMask, nanvals,
      listMinD, listMaxD, npHistogram, qmin, qmax, List.range_succ,
      List.filter, List.filterMap_cons, List.filterMap_nil, id_eq, List.foldl]

/-- With the range parameter already set, the source's loop histograms
every band against that fixed range. -/
theorem histWithRange_eq (bs : List (List F)) (bins : ℕ) (lo hi : ℚ) :
    calculate_histogram bs bins (some (lo, hi)) none = histWithRange bs bins lo hi := by
  induction bs with
  | nil => rfl
  | cons b bs ih =>
    show (match npHistogram (nanvals (applyMask none b)) bins lo hi,
            calculate_histogram bs bins (some (lo, hi)) none with
          | some h, some rest => some (h :: rest)
          | _, _ => none) = _
    rw [ih]
    rfl

/-- Claim C2 (amended): when the range is omitted on a multi-band input,
`calculate_histogram` derives (lo, hi) from the FIRST band's own non-NaN
min/max and reuses that range for the first band and every later band
(the loop reassigns `range_values`), instead of deriving it per band. -/
theorem histogram_shared_range_C2 (b : List F) (bs : List (List F)) (bins : ℕ)
    (lo hi : ℚ) (hlo : listMinD (nanvals b) = some lo)
    (hhi : listMaxD (nanvals b) = some hi) :
    calculate_histogram (b :: bs) bins none none =
      match npHistogram (nanvals b) bins lo hi, histWithRange bs bins lo hi with
      | some h, some rest => some (h :: rest)
      | _, _ => none := by
  show (match
          (match (none : Option (ℚ × ℚ)) with
           | some p => some p
           | none =>
             match listMinD (nanvals (applyMask none b)),
                 listMaxD (nanvals (applyMask none b)) with
             | some lo, some hi => some (lo, hi)
             | _, _ => none) with
        | none => none
        | some (lo, hi) =>
          match npHistogram (nanvals (applyMask none b)) bins lo hi,
              calculate_histogram bs bins (some (lo, hi)) none with
          | some h, some rest => some (h :: rest)
          | _, _ => none) = _
  rw [show applyMask none b = b from rfl, hlo, hhi]
  show (match npHistogram (nanvals b) bins lo hi,
          calculate_histogram bs bins (some (lo, hi)) none with
        | some h, some rest => some (h :: rest)
        | _, _ => none) = _
  rw [histWithRange_eq]

/-- Witness for C2 (amended) at the two-band input [[0, 1], [10, 20]]. -/
theorem histogram_shared_range_C2_witness :
    calculate_histogram [[some 0, some 1], [some 10, some 20]] 2 none none =
      match npHistogram (nanvals [some 0, some 1]) 2 0 1,
          histWithRange [[some 10, some 20]] 2 0 1 with
      | some h, some rest => some (h :: rest)
      | _, _ => none :=
  histogram_shared_range_C2 [some 0, some 1] [[some 10, some 20]] 2 0 1
    (by norm_num [nanvals, listMinD, qmin, List.filterMap_cons,
          List.filterMap_nil, id_eq, List.foldl])
    (by norm_num [nanvals, listMaxD, qmax, List.filterMap_cons,
          List.filterMap_nil, id_eq, List.foldl])

/-- Counterexample to claim C4 as stated: requesting the unknown
algorithm "foo" makes `analyze_vegetation_comprehensive` return `None`
to its caller — the `ValueError` raised inside is swallowed by the
function's blanket `except` — so no typed error reaches the caller. -/
theorem unsupported_alg_C4_counterexample :
    analyze_vegetation_comprehensive (fun _ => 0)
      ⟨some [some 1], some [some 1], some [some 1], some [some 1]⟩
      "foo" "rdylgn" = none := by
  unfold analyze_vegetation_comprehensive analyzeInner
  rw [if_neg (by decide : ("foo" : String) ∉ supportedAlgorithms)]
  rfl

/-- Claim C4 (amended): for every band set and algorithm name outside the
14 supported ones, the `try` body of `analyze_vegetation_comprehensive`
raises the unsupported-algorithm `ValueError`, and the function's blanket
`except` turns it into a `None` return value for the caller. -/
theorem unsupported_alg_C4 (sqrtF : ℚ → ℚ) (bands : BandSet)
    (alg colormap : String) (h : alg ∉ supportedAlgorithms) :
    analyzeInner sqrtF bands alg colormap = .error (.unsupportedAlgorithm alg) ∧
    analyze_vegetation_comprehensive sqrtF bands alg colormap = none := by
  have h1 : analyzeInner sqrtF bands alg colormap =
      .error (.unsupportedAlgorithm alg) := by
    unfold analyzeInner
    rw [if_neg h]
  refine ⟨h1, ?_⟩
  unfold analyze_vegetation_comprehensive
  rw [h1]
  rfl

/-- Witness for C4 (amended) at the unknown algorithm name "xyz". -/
theorem unsupported_alg_C4_witness :
    analyzeInner (fun _ => 0)
        ⟨some [some 1], some [some 1], some [some 1], some [some 1]⟩
        "xyz" "rdylgn" = .error (.unsupportedAlgorithm "xyz") ∧
    analyze_vegetation_comprehensive (fun _ => 0)
        ⟨some [some 1], some [some 1], some [some 1], some [some 1]⟩
        "xyz" "rdylgn" = none :=
  unsupported_alg_C4 (fun _ => 0)
    ⟨some [some 1], some [some 1], some [some 1], some [some 1]⟩
    "xyz" "rdylgn" (by decide)

/-- Counterexample to claim C5 as stated: on an all-NaN input with
min/max omitted, `apply_colormap` returns an image (the all-NaN grayscale
fallback) to its caller — the `ValueError` raised inside is swallowed by
the `except` handler, so no error reaches the caller. -/
theorem colormap_allnan_C5_counterexample :
    apply_colormap [none, none] "rdylgn" none none =
      .ok [(none, none, none), (none, none, none)] := by
  norm_num [apply_colormap, applyColormapInner, grayFallback, nanvals,
    nanminF, nanmaxF, listMinD, listMaxD, fclip01, fdiv, fsub,
    List.filterMap_cons, List.filterMap_nil, id_eq]

/-- Claim C5 (amended): on every non-empty all-NaN input — whatever the
palette and whether or not min/max are supplied — the internal
`ValueError` is caught and the grayscale fallback returns an all-NaN
three-channel image to the caller; no error propagates. -/
theorem colormap_allnan_C5 (data : List F) (palette : String) (minv maxv : Option ℚ)
    (hne : data ≠ []) (hnan : ∀ x ∈ data, x = none) :
    apply_colormap data palette minv maxv =
      .ok (data.map (fun _ => ((none : F), (none : F), (none : F)))) := by
  have hv : nanvals data = [] := by
    rw [nanvals]
    refine List.filterMap_eq_nil_iff.2 ?_
    intro a ha
    rw [hnan a ha]
    rfl
  have hlen : ¬ data.length = 0 := by
    simpa [List.length_eq_zero] using hne
  unfold apply_colormap applyColormapInner
  rw [if_neg hlen, if_pos hv]
  show grayFallback data = _
  unfold grayFallback
  rw [if_neg hlen]
  refine congrArg Except.ok ?_
  refine List.map_congr_left ?_
  intro x hx
  rw [hnan x hx, nanminF, nanmaxF, hv]
  rfl

/-- Witness for C5 (amended) at a three-pixel all-NaN input under a
non-ramp palette. -/
theorem colormap_allnan_C5_witness :
    apply_colormap [none, none, none] "viridis" none none =
      .ok (([none, none, none] : List F).map
        (fun _ => ((none : F), (none : F), (none : F)))) :=
  colormap_allnan_C5 [none, none, none] "viridis" none none
    (by simp) (by simp)

/-- Mean of a one-element list. -/
theorem meanQ_single (v : ℚ) : meanQ [v] = v := by
  norm_num [meanQ, qsum]

/-- Variance of a one-element list. -/
theorem varQ_single (v : ℚ) : varQ [v] = 0 := by
  norm_num [varQ, meanQ_single, qsum]

/-- Median of a one-element list. -/
theorem medianD_single (v : ℚ) : medianD [v] = some v := by
  norm_num [medianD, sortQ, insertSorted]

/-- Counterexample to claim C6 as stated: on an entirely-NaN input no
`EmptyDataError` reaches any caller — the histogram-path processing
returns `None` (its internal `ValueError` is caught), and the
comprehensive-analysis statistics are computed without raising, every
field coming out NaN. -/
theorem stats_allnan_C6_counterexample :
    process_geotiff_histogram_stats [[none, none]] 256 = none ∧
    nanStats [none, none] = ⟨none, none, none, none, none⟩ := by
  constructor
  · norm_num [process_geotiff_histogram_stats, calculate_histogram, applyMask,
      nanvals, listMinD, listMaxD, List.filterMap_cons, List.filterMap_nil, id_eq]
  · norm_num [nanStats, nanminF, nanmaxF, nanmeanF, nanvarF, nanmedianF,
      nanvals, listMinD, listMaxD, medianD, sortQ,
      List.filterMap_cons, List.filterMap_nil, id_eq]

/-- Claim C6 (amended): the statistics computations never raise to their
callers.  On an entirely-NaN band the histogram-path processing returns
`None` (the internal `ValueError` from `np.min` of an empty array — and
already from `calculate_histogram` — is caught) and the nan-statistics of
the analysis path are all NaN; on a band with exactly one valid element v
both return min = max = mean = median = v and std = 0. -/
theorem stats_summary_C6 (sqrtF : ℚ → ℚ) (h0 : sqrtF 0 = 0) (data : List F)
    (bins : ℕ) (hb : bins ≠ 0) :
    (nanvals data = [] →
       process_geotiff_histogram_stats [data] bins = none ∧
       nanStats data = ⟨none, none, none, none, none⟩ ∧
       NanStats.std sqrtF (nanStats data) = none) ∧
    (∀ v : ℚ, nanvals data = [v] →
       process_geotiff_histogram_stats [data] bins = some [⟨1, v, v, v, 0, v, 1⟩] ∧
       BandStatsQ.std sqrtF ⟨1, v, v, v, 0, v, 1⟩ = 0 ∧
       nanStats data = ⟨some v, some v, some v, some 0, some v⟩ ∧
       NanStats.std sqrtF (nanStats data) = some 0) := by
  constructor
  · intro hnn
    have hch : calculate_histogram [data] bins none none = none := by
      show (match
              (match (none : Option (ℚ × ℚ)) with
               | some p => some p
               | none =>
                 match listMinD (nanvals (applyMask none data)),
                     listMaxD (nanvals (applyMask none data)) with
                 | some lo, some hi => some (lo, hi)
                 | _, _ => none) with
            | none => none
            | some (lo, hi) =>
              match npHistogram (nanvals (applyMask none data)) bins lo hi,
                  calculate_histogram [] bins (some (lo, hi)) none with
              | some h, some rest => some (h :: rest)
              | _, _ => none) = none
      rw [show applyMask none data = data from rfl, hnn]
      rfl
    have hstats : nanStats data = ⟨none, none, none, none, none⟩ := by
      norm_num [nanStats, nanminF, nanmaxF, nanmeanF, nanvarF, nanmedianF,
        hnn, medianD, sortQ, listMinD, listMaxD]
    refine ⟨?_, hstats, ?_⟩
    · unfold process_geotiff_histogram_stats
      rw [hch]
    · rw [hstats]
      rfl
  · intro v hv
    have hnp : (npHistogram [v] bins v v).isSome := by
      unfold npHistogram
      rw [if_neg hb, if_neg (lt_irrefl v)]
      rfl
    obtain ⟨p, hp⟩ := Option.isSome_iff_exists.1 hnp
    have hch : calculate_histogram [data] bins none none = some [p] := by
      show (match
              (match (none : Option (ℚ × ℚ)) with
               | some p => some p
               | none =>
                 match listMinD (nanvals (applyMask none data)),
                     listMaxD (nanvals (applyMask none data)) with
                 | some lo, some hi => some (lo, hi)
                 | _, _ => none) with
            | none => none
            | some (lo, hi) =>
              match npHistogram (nanvals (applyMask none data)) bins lo hi,
                  calculate_histogram [] bins (some (lo, hi)) none with
              | some h, some rest => some (h :: rest)
              | _, _ => none) = some [p]
      rw [show applyMask none data = data from rfl, hv]
      show (match npHistogram [v] bins v v,
              calculate_histogram [] bins (some (v, v)) none with
            | some h, some rest => some (h :: rest)
            | _, _ => none) = some [p]
      rw [hp]
      rfl
    have hbs : bandStatsE 0 data = .ok ⟨1, v, v, v, 0, v, 1⟩ := by
      unfold bandStatsE
      rw [hv]
      norm_num [meanQ_single, varQ_single, medianD_single]
    have hproc : process_geotiff_histogram_stats [data] bins =
        some [⟨1, v, v, v, 0, v, 1⟩] := by
      unfold process_geotiff_histogram_stats
      rw [hch]
      show (statsLoop 0 [data]).toOption = _
      unfold statsLoop
      rw [hbs]
      rfl
    have hstats : nanStats data = ⟨some v, some v, some v, some 0, some v⟩ := by
      norm_num [nanStats, nanminF, nanmaxF, nanmeanF, nanvarF, nanmedianF,
        hv, meanQ_single, varQ_single, medianD_single, listMinD, listMaxD]
    refine ⟨hproc, ?_, hstats, ?_⟩
    · norm_num [BandStatsQ.std, h0]
    · rw [hstats]
      norm_num [NanStats.std, h0]

/-- Witness for C6 (amended) at the band [5, NaN]. -/
theorem stats_summary_C6_witness :
    nanStats [some 5, none] = ⟨some 5, some 5, some 5, some 0, some 5⟩ :=
  (((stats_summary_C6 (fun _ => 0) rfl [some 5, none] 4 (by norm_num)).2 5
    (by norm_num [nanvals, List.filterMap_cons, List.filterMap_nil, id_eq])).2.2).1

/-- A normalized pixel value is never below 0. -/
theorem normVal_nonneg (lo hi : ℚ) (x : F) : 0 ≤ normVal lo hi x := by
  cases x <;> exact le_qmin (by norm_num) (le_qmax_left _ _)

/-- A normalized pixel value is never above 1. -/
theorem normVal_le_one (lo hi : ℚ) (x : F) : normVal lo hi x ≤ 1 := by
  cases x <;> exact qmin_le_left _ _

/-- For a normalized value in [0, 1] the source's clip of the lookup
index is a no-op: the truncated index already lies in [0, 131]. -/
theorem codeIdx_eq_floor {n : ℚ} (h0 : 0 ≤ n) (h1 : n ≤ 1) :
    codeIdx n = Int.toNat ⌊n * 131⌋ := by
  have hm0 : (0:ℚ) ≤ n * 131 := mul_nonneg h0 (by norm_num)
  have hf0 : 0 ≤ ⌊n * 131⌋ := Int.floor_nonneg.2 hm0
  have hf1 : ⌊n * 131⌋ ≤ 131 := by
    have hm1 : n * 131 ≤ 131 := by nlinarith
    calc ⌊n * 131⌋ ≤ ⌊(131:ℚ)⌋ := Int.floor_le_floor hm1
      _ = 131 := by norm_num
  unfold codeIdx truncInt
  rw [if_neg (not_lt.2 hm0)]
  unfold zmin zmax
  rw [if_pos hf0]
  by_cases h131 : (131:ℤ) ≤ ⌊n * 131⌋
  · have heq : ⌊n * 131⌋ = 131 := le_antisymm hf1 h131
    rw [if_pos h131, heq]
  · rw [if_neg h131]

/-- The fixed-ramp path of `apply_colormap` on valid input: every pixel is
normalized and looked up at the clipped truncated index. -/
theorem apply_colormap_rdylgn (data : List F) (minv maxv : Option ℚ)
    (hne : ¬ data.length = 0) (hval : nanvals data ≠ []) :
    apply_colormap data "rdylgn" minv maxv =
      .ok (data.map (fun x =>
        lutColor (codeIdx (normVal (cmLo data minv) (cmHi data minv maxv) x)))) := by
  unfold apply_colormap applyColormapInner
  rw [if_neg hne, if_neg hval, if_pos rfl]
  show Except.ok ((data.map (normVal (cmLo data minv) (cmHi data minv maxv))).map
      (fun n => lutColor (codeIdx n))) = _
  rw [List.map_map]
  rfl

/-- Counterexample to claim C7 as stated: on [0, 1, 2] with range omitted
the middle pixel normalizes to 1/2, the source's `astype(int)` truncation
gives lookup index 65, while the claim's `round(normalized*(N-1))` gives
66, and the two table entries differ — so the source does not use
rounding. -/
theorem colormap_round_C7_counterexample :
    apply_colormap [some 0, some 1, some 2] "rdylgn" none none =
      .ok [lutColor 0, lutColor 65, lutColor 131] ∧
    codeIdx (1/2) = 65 ∧ specIdx (1/2) = 66 ∧ lutColor 65 ≠ lutColor 66 := by
  refine ⟨?_, ?_, ?_, ?_⟩
  · rw [apply_colormap_rdylgn _ _ _ (by norm_num)
        (by simp [nanvals, List.filterMap_cons, List.filterMap_nil, id_eq])]
    norm_num [normVal, cmLo, cmHi, nanminQ, nanmaxQ, nanvals, listMinD, listMaxD,
      List.filterMap_cons, List.filterMap_nil, id_eq, List.foldl, qmin, qmax,
      codeIdx, truncInt, zmin, zmax]
    exact ⟨rfl, rfl⟩
  · norm_num [codeIdx, truncInt, zmin, zmax]
    rfl
  · norm_num [specIdx, zmin, zmax, round_eq]
    rfl
  · norm_num [lutColor, RdYlGn_lut]

/-- Claim C7 (amended): in the fixed-ramp path each normalized pixel
value n ∈ [0, 1] is mapped to lookup index `trunc(n*(N-1))` — numpy's
`astype(int)` truncation, i.e. ⌊n·131⌋ here — which already lies in the
valid index range [0, N-1], the subsequent clip being a no-op
(N = 132 ≥ 128). -/
theorem colormap_trunc_C7 (data : List F) (minv maxv : Option ℚ)
    (hne : data ≠ []) (hval : nanvals data ≠ []) :
    apply_colormap data "rdylgn" minv maxv =
      .ok (data.map (fun x =>
        lutColor (Int.toNat
          ⌊normVal (cmLo data minv) (cmHi data minv maxv) x * 131⌋))) := by
  have hlen : ¬ data.length = 0 := by simpa [List.length_eq_zero] using hne
  rw [apply_colormap_rdylgn data minv maxv hlen hval]
  refine congrArg Except.ok (List.map_congr_left ?_)
  intro x _
  rw [codeIdx_eq_floor (normVal_nonneg _ _ _) (normVal_le_one _ _ _)]

/-- Witness for C7 (amended) at the two-pixel input [0, 4]. -/
theorem colormap_trunc_C7_witness :
    apply_colormap [some 0, some 4] "rdylgn" none none =
      .ok (([some 0, some 4] : List F).map (fun x =>
        lutColor (Int.toNat
          ⌊normVal (cmLo [some 0, some 4] none) (cmHi [some 0, some 4] none none)
              x * 131⌋))) :=
  colormap_trunc_C7 [some 0, some 4] none none (by simp)
    (by simp [nanvals, List.filterMap_cons, List.filterMap_nil, id_eq])

/-- Claim C9: on an input with some NaN pixels but not all NaN and with
min/max omitted, every NaN pixel keeps normalized value 0 and therefore
receives the palette's minimum color — exactly the color of a pixel whose
value equals the display minimum, making the two indistinguishable in the
output image. -/
theorem colormap_nan_color_C9 (data : List F) (i : ℕ)
    (hne : data ≠ []) (hval : nanvals data ≠ [])
    (hx : data.get? i = some none ∨ data.get? i = some (some (nanminQ data))) :
    ((apply_colormap data "rdylgn" none none).toOption.bind (fun img => img.get? i)) =
      some (lutColor 0) := by
  have hlen : ¬ data.length = 0 := by simpa [List.length_eq_zero] using hne
  rw [apply_colormap_rdylgn data none none hlen hval]
  show (data.map (fun x =>
      lutColor (codeIdx (normVal (cmLo data none) (cmHi data none none) x)))).get? i =
    some (lutColor 0)
  rw [List.get?_map]
  rcases hx with hx | hx <;> rw [hx]
  · show some (lutColor (codeIdx (normVal (cmLo data none) (cmHi data none none) none))) = _
    have h1 : normVal (cmLo data none) (cmHi data none none) none = 0 := by
      norm_num [normVal, qmax, qmin]
    rw [h1]
    have h2 : codeIdx 0 = 0 := by
      norm_num [codeIdx, truncInt, zmin, zmax]
    rw [h2]
  · show some (lutColor (codeIdx (normVal (cmLo data none) (cmHi data none none)
        (some (nanminQ data))))) = _
    have h1 : normVal (cmLo data none) (cmHi data none none) (some (nanminQ data)) = 0 := by
      unfold normVal cmLo
      norm_num [qmax, qmin]
    rw [h1]
    have h2 : codeIdx 0 = 0 := by
      norm_num [codeIdx, truncInt, zmin, zmax]
    rw [h2]

/-- Witness for C9 at [NaN, 3, 5]: the NaN pixel gets the minimum color. -/
theorem colormap_nan_color_C9_witness :
    ((apply_colormap [none, some 3, some 5] "rdylgn" none none).toOption.bind
      (fun img => img.get? 0)) = some (lutColor 0) :=
  colormap_nan_color_C9 [none, some 3, some 5] 0 (by simp)
    (by simp [nanvals, List.filterMap_cons, List.filterMap_nil, id_eq]) (Or.inl rfl)

/-- `write_geotiff` on a 3-D array, in closed form. -/
theorem write_geotiff_eq3 (a : NpArray) (meta : GeoMeta) (comp : String)
    (c h w : ℕ) (hs : a.shape = [c, h, w]) :
    write_geotiff a meta comp = some ⟨h, w, c,
      (if a.dtype = .float32 ∨ a.dtype = .float64 ∨ a.dtype = .uint8 ∨
          a.dtype = .uint16 then a.dtype else .float32),
      meta.crs, meta.transform, comp, a.data⟩ := by
  unfold write_geotiff
  rw [hs]
  simp only [List.length_cons, List.length_nil]
  norm_num
  cases hd : a.dtype <;> simp [hd, hs]

/-- `write_geotiff` on a 2-D array: promoted to a single band. -/
theorem write_geotiff_eq2 (a : NpArray) (meta : GeoMeta) (comp : String)
    (h w : ℕ) (hs : a.shape = [h, w]) :
    write_geotiff a meta comp = some ⟨h, w, 1,
      (if a.dtype = .float32 ∨ a.dtype = .float64 ∨ a.dtype = .uint8 ∨
          a.dtype = .uint16 then a.dtype else .float32),
      meta.crs, meta.transform, comp, a.data⟩ := by
  unfold write_geotiff
  rw [hs]
  simp only [List.length_cons, List.length_nil]
  norm_num
  cases hd : a.dtype <;> simp [hd, hs]

/-- Claim C8: `write_geotiff` promotes a 2-D array to one band before
writing, keeps the dtype when it is float32/float64/uint8/uint16 and
otherwise writes float32 (casting the data), and writes the CRS and
transform taken unchanged from the supplied metadata. -/
theorem write_geotiff_C8 (a : NpArray) (meta : GeoMeta) (comp : String)
    (hdim : a.shape.length = 2 ∨ a.shape.length = 3) :
    (write_geotiff a meta comp).map (fun t => t.crs) = some meta.crs ∧
    (write_geotiff a meta comp).map (fun t => t.transform) = some meta.transform ∧
    (write_geotiff a meta comp).map (fun t => t.dtype) =
      some (if a.dtype = .float32 ∨ a.dtype = .float64 ∨ a.dtype = .uint8 ∨
        a.dtype = .uint16 then a.dtype else .float32) ∧
    (write_geotiff a meta comp).map (fun t => t.data) = some a.data ∧
    (a.shape.length = 2 → (write_geotiff a meta comp).map (fun t => t.count) = some 1) := by
  rcases hdim with h2 | h3
  · obtain ⟨x, y, hs⟩ := List.length_eq_two.1 h2
    rw [write_geotiff_eq2 a meta comp x y hs]
    simp
  · obtain ⟨x, y, z, hs⟩ := List.length_eq_three.1 h3
    rw [write_geotiff_eq3 a meta comp x y z hs]
    simp [hs]

/-- Witness for C8 at a 2-D int32 array: dtype falls back to float32 and
the CRS is passed through. -/
theorem write_geotiff_C8_witness :
    (write_geotiff ⟨[2, 3], .other "int32", [9, 9, 9, 9, 9, 9]⟩
        ⟨some "epsg4326", some "affine010"⟩ "lzw").map (fun t => t.dtype) =
      some DType.float32 ∧
    (write_geotiff ⟨[2, 3], .other "int32", [9, 9, 9, 9, 9, 9]⟩
        ⟨some "epsg4326", some "affine010"⟩ "lzw").map (fun t => t.crs) =
      some (some "epsg4326") := by
  have h := write_geotiff_C8 ⟨[2, 3], .other "int32", [9, 9, 9, 9, 9, 9]⟩
    ⟨some "epsg4326", some "affine010"⟩ "lzw" (Or.inl rfl)
  refine ⟨?_, h.1⟩
  simpa using h.2.2.1
